import Mathlib

/-!
Verification development for the engagement subsystem of a video-sharing
backend: a friendship-request state machine, a favorite-toggle relation with
trending ranking, a remix relation with trending ranking, and the dispatch
layer routes that orchestrate calls into these modules.

Identity and content references are opaque equality-comparable tokens; they
are modelled as natural numbers.
-/

namespace Engagement

/-! ## Friendship Engine -/

/-- Modelled from the spec: error kinds raised by the Friendship Engine
(§7: `InvalidOperation`, `AlreadyFriends`, `DuplicateRequest`, `NotFound`). -/
inductive FriendErr
  | invalidOperation
  | alreadyFriends
  | duplicateRequest
  | notFound
  deriving DecidableEq

/-- Modelled from the spec: FriendRequest status ∈ \x7bpending, accepted, rejected\x7d. -/
inductive ReqStatus
  | pending
  | accepted
  | rejected
  deriving DecidableEq

/-- Modelled from the spec: a FriendRequest record `\x7b from, to, status \x7d`. -/
structure FriendRequestRec where
  fromId : Nat
  toId : Nat
  status : ReqStatus
  deriving DecidableEq

/-- Modelled from the spec: the Friendship Engine state, holding the
FriendRequest records and the symmetric Friendship pairs. -/
structure FriendState where
  requests : List FriendRequestRec
  friendships : List (Nat × Nat)
  deriving DecidableEq

/-- Modelled from the spec: a Friendship exists for the unordered pair
`(a, b)` (the stored pair may be oriented either way). -/
def friendshipExists (a b : Nat) (st : FriendState) : Bool :=
  st.friendships.any fun p => decide ((p.1 = a ∧ p.2 = b) ∨ (p.1 = b ∧ p.2 = a))

/-- Modelled from the spec: a pending FriendRequest exists for the ordered
pair `(f, t)`. -/
def pendingExists (f t : Nat) (st : FriendState) : Bool :=
  st.requests.any fun r =>
    decide (r.fromId = f ∧ r.toId = t ∧ r.status = ReqStatus.pending)

/-- Modelled from the spec: `sendRequest(from, to)` fails with
`InvalidOperation` if `from = to`, with `AlreadyFriends` if a Friendship
already exists for the pair, with `DuplicateRequest` if a pending request
exists for the ordered pair or its reverse; otherwise it creates and returns
a pending FriendRequest. -/
def sendRequest (f t : Nat) (st : FriendState) :
    Except FriendErr (FriendRequestRec × FriendState) :=
  if f = t then .error .invalidOperation
  else if friendshipExists f t st then .error .alreadyFriends
  else if pendingExists f t st || pendingExists t f st then .error .duplicateRequest
  else
    let req : FriendRequestRec := ⟨f, t, ReqStatus.pending⟩
    .ok (req, ⟨st.requests ++ [req], st.friendships⟩)

/-- Modelled from the spec: `acceptRequest(from, to)` fails with `NotFound`
if no pending request `(from, to)` exists; on success retires (deletes) the
pending request and creates the symmetric Friendship if absent. -/
def acceptRequest (f t : Nat) (st : FriendState) : Except FriendErr FriendState :=
  if pendingExists f t st then
    .ok ⟨st.requests.filter fun r =>
           !(decide (r.fromId = f ∧ r.toId = t ∧ r.status = ReqStatus.pending)),
         if friendshipExists f t st then st.friendships
         else st.friendships ++ [(f, t)]⟩
  else .error .notFound

/-- Modelled from the spec: `getFriends(identity)` returns the identities in
a Friendship with `identity`. -/
def getFriends (u : Nat) (st : FriendState) : List Nat :=
  st.friendships.filterMap fun p =>
    if p.1 = u then some p.2 else if p.2 = u then some p.1 else none

/-! ## Favoriting Engine -/

/-- Modelled from the spec: `toggleFavorite(user, content)` deletes the
Favorite and returns `false` if it exists, otherwise inserts it and returns
`true`. The Favorite relation is a set of (user, content) pairs. -/
def toggleFavorite (u c : Nat) (favs : Finset (Nat × Nat)) :
    Bool × Finset (Nat × Nat) :=
  if (u, c) ∈ favs then (false, favs.erase (u, c))
  else (true, insert (u, c) favs)

/-- Modelled from the spec: `getFavoriteCount(content)` returns the
cardinality of the Favorites on `content`. -/
def getFavoriteCount (c : Nat) (favs : Finset (Nat × Nat)) : Nat :=
  (favs.filter fun p => p.2 = c).card

/-! ## Remixing Engine -/

/-- Modelled from the spec: error kind raised by `createRemix`. -/
inductive RemixErr
  | alreadyRemix
  deriving DecidableEq

/-- Modelled from the spec: `remix` already has an edge, i.e. already has an
original. Edges are (original, remix) pairs. -/
def hasOriginal (r : Nat) (edges : List (Nat × Nat)) : Bool :=
  edges.any fun e => decide (e.2 = r)

/-- Modelled from the spec: `createRemix(original, remix)` fails with
`AlreadyRemix` if `remix` already has an original; otherwise inserts the
edge `(original, remix)`. -/
def createRemix (o r : Nat) (edges : List (Nat × Nat)) :
    Except RemixErr (List (Nat × Nat)) :=
  if hasOriginal r edges then .error .alreadyRemix
  else .ok ((o, r) :: edges)

/-- Modelled from the spec: `getRemixesOnPost(original)` returns all remixes
whose edge points at `original`. -/
def getRemixesOnPost (o : Nat) (edges : List (Nat × Nat)) : List Nat :=
  (edges.filter fun e => decide (e.1 = o)).map Prod.snd

/-- Modelled from the spec: `getOriginalPost(content)` returns the single
original of `content` if it is a remix, else none (one hop only). -/
def getOriginalPost (c : Nat) (edges : List (Nat × Nat)) : Option Nat :=
  (edges.find? fun e => decide (e.2 = c)).map Prod.fst

/-! ## Trending Ranker -/

/-- Modelled from the spec: error kind raised by the Trending Ranker. -/
inductive RankErr
  | invalidOperation
  deriving DecidableEq

/-- Descending-score order used by the Trending Ranker. -/
def scoreRel (score : Nat → Nat) : Nat → Nat → Prop :=
  fun a b => score b ≤ score a

instance (score : Nat → Nat) : DecidableRel (scoreRel score) :=
  fun _ _ => Nat.decLe _ _

instance (score : Nat → Nat) : IsTotal Nat (scoreRel score) :=
  ⟨fun a b => (le_total (score b) (score a)).imp id id⟩

instance (score : Nat → Nat) : IsTrans Nat (scoreRel score) :=
  ⟨fun _ _ _ hab hbc => le_trans hbc hab⟩

/-- Modelled from the spec: the Trending Ranker orders the candidates by
descending score, candidates of equal score keeping their input order
(stable insertion sort). -/
def trendingRank (score : Nat → Nat) (candidates : List Nat) : List Nat :=
  candidates.insertionSort (scoreRel score)

/-- Modelled from the spec: the Trending Ranker fails with
`InvalidOperation` if `limit < 0`, else returns the top `limit` candidates
ordered by descending score. -/
def trendingTopN (score : Nat → Nat) (candidates : List Nat) (limit : Int) :
    Except RankErr (List Nat) :=
  if limit < 0 then .error .invalidOperation
  else .ok ((trendingRank score candidates).take limit.toNat)

/-- Modelled from the spec: `getMostFavorited` delegates to the Trending
Ranker with `getFavoriteCount` as the score function. -/
def getMostFavorited (favs : Finset (Nat × Nat)) (candidates : List Nat)
    (limit : Int) : Except RankErr (List Nat) :=
  trendingTopN (fun c => getFavoriteCount c favs) candidates limit

/-- Modelled from the spec: `getMostRemixed` delegates to the Trending
Ranker with the remix count as the score function. -/
def getMostRemixed (edges : List (Nat × Nat)) (candidates : List Nat)
    (limit : Int) : Except RankErr (List Nat) :=
  trendingTopN (fun c => (getRemixesOnPost c edges).length) candidates limit

/-! ## Dispatch layer

The routes below are embedded from the source routes file.  The collaborator
modules it calls (Posting, Sessioning, Filtering) are not part of the visible
source; they are modelled from the spec's collaborator contracts (§6). -/

/-- A content record as held by the authoring collaborator.  Modelled from
the spec: a post carries its author, display attributes and an
`originalArtist` attribute that the Remixing flow reads. -/
structure PostRecord where
  author : Nat
  videoURL : Nat
  videoTitle : Nat
  videoDescription : Nat
  originalArtist : Option Nat
  deriving DecidableEq

/-- The application state visible to the dispatch layer: the authoring
collaborator's post store (id, record) with a fresh-id counter, the
Favoriting relation, the Remixing edges and the Filtering tag relation
(post id, tag). -/
structure AppState where
  posts : List (Nat × PostRecord)
  nextPostId : Nat
  favorites : Finset (Nat × Nat)
  remixEdges : List (Nat × Nat)
  tags : List (Nat × Nat)
  deriving DecidableEq

/-- Errors a route can fail a request with. -/
inductive RouteErr
  | notLoggedIn
  | notFound
  | typeError
  | alreadyRemix
  deriving DecidableEq

/-- Modelled from the spec: `Posting.getPosts()` returns all post records. -/
def postingGetPosts (st : AppState) : List PostRecord :=
  st.posts.map Prod.snd

/-- Modelled from the spec: `Posting.getByID(references)` resolves content
references back to the stored records. -/
def postingGetByID (ids : List Nat) (st : AppState) : List PostRecord :=
  (st.posts.filter fun p => ids.contains p.1).map Prod.snd

/-- Modelled from the spec: the authoring collaborator's
`contentExists(reference)` check. -/
def postingExists (oid : Nat) (st : AppState) : Bool :=
  st.posts.any fun p => decide (p.1 = oid)

/-- Modelled from the spec: `Posting.assertPostExists` fails with a
not-found error when the content reference names no existing post. -/
def assertPostExists (oid : Nat) (st : AppState) : Except RouteErr Unit :=
  if postingExists oid st then .ok () else .error .notFound

/-- Modelled from the spec: `Posting.create` stores a fresh post record with
the given attributes and returns it with its new id. -/
def postingCreate (author vURL vTitle vDesc : Nat) (artist : Option Nat)
    (st : AppState) : (Nat × PostRecord) × AppState :=
  let r0 : PostRecord := ⟨author, vURL, vTitle, vDesc, artist⟩
  ((st.nextPostId, r0),
   ⟨st.posts ++ [(st.nextPostId, r0)], st.nextPostId + 1,
    st.favorites, st.remixEdges, st.tags⟩)

/-- Modelled from the spec: `Filtering.getPostsByTags` returns the ids of
the posts carrying the given tag. -/
def getPostsByTags (t : Nat) (st : AppState) : List Nat :=
  (st.tags.filter fun p => decide (p.2 = t)).map Prod.fst

/-- The `toggleFavorite` route, embedded from the source.  The session is
`some user` when logged in.  In the source, `Posting.assertPostExists(oid)`
is invoked without `await`: the returned promise is dropped, so its
rejection cannot fail the request; that statement is therefore embedded as
a discarded value. -/
def toggleFavoriteRoute (postID : Nat) (session : Option Nat) (st : AppState) :
    Except RouteErr (Bool × AppState) :=
  match session with
  | none => .error .notLoggedIn
  | some user =>
    let _floating := assertPostExists postID st
    let res := toggleFavorite user postID st.favorites
    .ok (res.1, ⟨st.posts, st.nextPostId, res.2, st.remixEdges, st.tags⟩)

/-- The `createRemix` route, embedded from the source: the un-awaited
`assertPostExists` is a discarded value; the original record is read with
`getByID(...)[0]` (indexing an empty result yields `undefined`, and reading
`.originalArtist` off it throws, embedded as a type error); the new post is
created with the artist read off the resolved original record, not with the
caller-supplied `originalArtist`; finally the remix edge is inserted. -/
def createRemixRoute (originalPostID : Nat) (session : Option Nat)
    (vURL vTitle vDesc : Nat) (originalArtist : Option Nat) (st : AppState) :
    Except RouteErr ((Nat × PostRecord) × AppState) :=
  let _floating := assertPostExists originalPostID st
  match (postingGetByID [originalPostID] st).head? with
  | none => .error .typeError
  | some originalPost =>
    let foundArtist := originalPost.originalArtist
    match session with
    | none => .error .notLoggedIn
    | some user =>
      let created := postingCreate user vURL vTitle vDesc foundArtist st
      match createRemix originalPostID created.1.1 created.2.remixEdges with
      | .error _ => .error .alreadyRemix
      | .ok edges =>
        .ok (created.1,
             ⟨created.2.posts, created.2.nextPostId, created.2.favorites,
              edges, created.2.tags⟩)

/-- Result of the `getRandomPostFiltered` route: either the early-returned
empty list, or the argument handed to the response formatter
(`Responses.posts`), whose elements are `none` exactly when the source
indexes past the end of the array (JavaScript `undefined`). -/
inductive RandomPostResult
  | emptyList
  | formatted (posts : List (Option PostRecord))
  deriving DecidableEq

/-- The `getRandomPostFiltered` route, embedded from the source.  `rand`
models the value of `Math.random()`, a number in `[0, 1)`; the index is
`⌊rand * allPosts.length⌋` and `allPosts[randomIdx]` is the JavaScript
array access, which yields `undefined` (here `none`) out of bounds. -/
def getRandomPostFiltered (tagNames : Option Nat) (rand : ℚ) (st : AppState) :
    RandomPostResult :=
  match tagNames with
  | none =>
    let allPosts := postingGetPosts st
    let randomIdx := (rand * (allPosts.length : ℚ)).floor.toNat
    .formatted [allPosts[randomIdx]?]
  | some t =>
    let allPostIDs := getPostsByTags t st
    if allPostIDs.length = 0 then .emptyList
    else
      let allPosts := postingGetByID allPostIDs st
      let randomIdx := (rand * (allPosts.length : ℚ)).floor.toNat
      .formatted [allPosts[randomIdx]?]

/-- The collaborator invocations a route can make, for call-trace reasoning
about the orchestration routes. -/
inductive RouteCall
  | sessioningGetUser
  | sessioningIsLoggedIn
  | postingAssertAuthorIsUser (post user : Nat)
  | postingAssertPostExists (post : Nat)
  | postingDelete (post : Nat)
  | remixingDeleteRemix (post : Nat)
  | filteringDeletePostStorage (post : Nat)
  | favoritingToggleFavorite (user post : Nat)
  deriving DecidableEq

/-- Whether a collaborator invocation targets the Favoriting Engine. -/
def RouteCall.targetsFavoriting : RouteCall → Bool
  | favoritingToggleFavorite _ _ => true
  | _ => false

/-- The ordered collaborator invocations of the `deletePost` route, embedded
from the source: resolve the session user, assert the caller authored the
post, `Remixing.deleteRemix(oid)`, `Filtering.deletePostStorage(oid)`, then
`Posting.delete(oid)`. -/
def deletePostCalls (user oid : Nat) : List RouteCall :=
  [.sessioningGetUser, .postingAssertAuthorIsUser oid user,
   .remixingDeleteRemix oid, .filteringDeletePostStorage oid,
   .postingDelete oid]

/-- The ordered collaborator invocations of the `toggleFavorite` route,
embedded from the source. -/
def toggleFavoriteCalls (user oid : Nat) : List RouteCall :=
  [.sessioningIsLoggedIn, .postingAssertPostExists oid, .sessioningGetUser,
   .favoritingToggleFavorite user oid]

/-! ## Claims -/

/-- C1 (amended): every `deletePost` dispatch invokes the Remixing Engine's
cleanup (`deleteRemix` on the deleted post's reference) and the Filtering
module's cleanup before the post record itself is deleted, but it invokes no
Favoriting Engine operation at all. -/
theorem C1_deletePost_cleanup (user oid : Nat) :
    ∃ pre post,
      deletePostCalls user oid = pre ++ RouteCall.postingDelete oid :: post ∧
      RouteCall.remixingDeleteRemix oid ∈ pre ∧
      RouteCall.filteringDeletePostStorage oid ∈ pre ∧
      ∀ c ∈ deletePostCalls user oid, c.targetsFavoriting = false := by
  refine ⟨[.sessioningGetUser, .postingAssertAuthorIsUser oid user,
           .remixingDeleteRemix oid, .filteringDeletePostStorage oid], [],
          rfl, by simp, by simp, ?_⟩
  intro c hc
  simp only [deletePostCalls, List.mem_cons, List.not_mem_nil, or_false] at hc
  rcases hc with rfl | rfl | rfl | rfl | rfl <;> rfl

/-- C1 counterexample: at user 0 and post 1, the `deletePost` dispatch makes
no call targeting the Favoriting Engine at all, so it does not perform the
Favoriting cleanup the claim asserts. -/
theorem C1_deletePost_no_favoriting_call :
    (deletePostCalls 0 1).all (fun c => !c.targetsFavoriting) = true := by decide

/-- C1 witness: the amended theorem applied at user 0 and post 1; in
particular the session lookup call of that trace targets no Favoriting
operation. -/
theorem C1_deletePost_cleanup_witness :
    RouteCall.sessioningGetUser.targetsFavoriting = false := by
  obtain ⟨pre, post, hd, h1, h2, h3⟩ := C1_deletePost_cleanup 0 1
  exact h3 RouteCall.sessioningGetUser (by simp [deletePostCalls])

/-- C4: `sendRequest(from, to)` fails with `InvalidOperation` when
`from = to`; fails with `AlreadyFriends` when a Friendship exists for the
pair; fails with `DuplicateRequest` when a pending request exists for the
ordered pair or its reverse; and in exactly the remaining case it succeeds,
creating a pending FriendRequest and returning it. -/
theorem C4_sendRequest_error_cases (f t : Nat) (st : FriendState) :
    (f = t → sendRequest f t st = .error .invalidOperation) ∧
    (f ≠ t → friendshipExists f t st = true →
      sendRequest f t st = .error .alreadyFriends) ∧
    (f ≠ t → friendshipExists f t st = false →
      (pendingExists f t st = true ∨ pendingExists t f st = true) →
      sendRequest f t st = .error .duplicateRequest) ∧
    (f ≠ t → friendshipExists f t st = false → pendingExists f t st = false →
      pendingExists t f st = false →
      sendRequest f t st =
        .ok (⟨f, t, ReqStatus.pending⟩,
             ⟨st.requests ++ [⟨f, t, ReqStatus.pending⟩], st.friendships⟩)) := by
  refine ⟨fun h1 => ?_, fun h1 h2 => ?_, fun h1 h2 h3 => ?_,
          fun h1 h2 h3 h4 => ?_⟩
  · simp [sendRequest, h1]
  · simp [sendRequest, h1, h2]
  · rcases h3 with h3 | h3 <;> simp [sendRequest, h1, h2, h3]
  · simp [sendRequest, h1, h2, h3, h4]

/-- C4 witness: a self-request concretely fails with `InvalidOperation`. -/
theorem C4_sendRequest_error_cases_witness :
    sendRequest 1 1 ⟨[], []⟩ = .error .invalidOperation :=
  (C4_sendRequest_error_cases 1 1 ⟨[], []⟩).1 rfl

/-- C8: once `createRemix o r` has succeeded, any further
`createRemix o2 r` on the same remix fails with `AlreadyRemix`, the first
edge `(o, r)` remains intact, and `r` appears as remix in exactly one
edge. -/
theorem C8_createRemix_original_immutable (o o2 r : Nat)
    (edges edges1 : List (Nat × Nat))
    (h : createRemix o r edges = .ok edges1) :
    createRemix o2 r edges1 = .error .alreadyRemix ∧
    (o, r) ∈ edges1 ∧
    edges1.countP (fun e => decide (e.2 = r)) = 1 := by
  rw [createRemix] at h
  by_cases hh : hasOriginal r edges = true
  · simp [hh] at h
  · rw [if_neg (by simp [hh])] at h
    obtain rfl : (o, r) :: edges = edges1 := by simpa using h
    have h0 : edges.countP (fun e => decide (e.2 = r)) = 0 := by
      rw [List.countP_eq_zero]
      have hall : ∀ x : Nat, (x, r) ∉ edges := by
        simpa [hasOriginal, List.any_eq_true] using hh
      rintro ⟨a, b⟩ he
      simp only [decide_eq_true_eq]
      rintro rfl
      exact hall a he
    refine ⟨by simp [createRemix, hasOriginal], List.mem_cons_self _ _, ?_⟩
    simp [List.countP_cons, h0]

/-- C8 witness: concretely, after remixing post 2 from post 1 in the empty
edge set, remixing post 2 again from post 3 fails with `AlreadyRemix` and
the edge (1, 2) is intact. -/
theorem C8_createRemix_original_immutable_witness :
    createRemix 3 2 [(1, 2)] = .error .alreadyRemix ∧
    (1, 2) ∈ [(1, 2)] ∧
    [(1, 2)].countP (fun e => decide (e.2 = 2)) = 1 :=
  C8_createRemix_original_immutable 1 3 2 [] [(1, 2)] rfl

/-- C9: from any state, two successive `toggleFavorite(u, c)` calls return
`true` then `false` when the Favorite was initially absent (`false` then
`true` when initially present), and the favorite set — hence every
`getFavoriteCount` — is restored to its initial value. -/
theorem C9_toggleFavorite_involution (u c : Nat) (favs : Finset (Nat × Nat)) :
    (((u, c) ∉ favs →
        (toggleFavorite u c favs).1 = true ∧
        (toggleFavorite u c (toggleFavorite u c favs).2).1 = false) ∧
      ((u, c) ∈ favs →
        (toggleFavorite u c favs).1 = false ∧
        (toggleFavorite u c (toggleFavorite u c favs).2).1 = true)) ∧
    (toggleFavorite u c (toggleFavorite u c favs).2).2 = favs ∧
    ∀ c2, getFavoriteCount c2 (toggleFavorite u c (toggleFavorite u c favs).2).2 =
      getFavoriteCount c2 favs := by
  by_cases h : (u, c) ∈ favs
  · have h2 : (u, c) ∉ favs.erase (u, c) := Finset.not_mem_erase _ _
    simp [toggleFavorite, h, h2, Finset.insert_erase h]
  · have h2 : (u, c) ∈ insert (u, c) favs := Finset.mem_insert_self _ _
    simp [toggleFavorite, h, h2, Finset.erase_insert h]

/-- C9 witness: concretely at user 0, content 1 and the empty favorite set,
the two toggles return `true` then `false` and restore the empty set. -/
theorem C9_toggleFavorite_involution_witness :
    (toggleFavorite 0 1 (∅ : Finset (Nat × Nat))).1 = true ∧
    (toggleFavorite 0 1 (toggleFavorite 0 1 (∅ : Finset (Nat × Nat))).2).1 = false ∧
    (toggleFavorite 0 1 (toggleFavorite 0 1 (∅ : Finset (Nat × Nat))).2).2 = ∅ := by
  have h := C9_toggleFavorite_involution 0 1 (∅ : Finset (Nat × Nat))
  exact ⟨(h.1.1 (by simp)).1, (h.1.1 (by simp)).2, h.2.1⟩

/-- C5: whenever `sendRequest(a, b)` succeeds, the subsequent
`acceptRequest(a, b)` succeeds, after which `getFriends a` contains `b`,
`getFriends b` contains `a`, and the pending request is retired; moreover
`acceptRequest` fails with `NotFound` on any state with no pending
request `(a, b)`. -/
theorem C5_accept_after_send (a b : Nat) (st st1 : FriendState)
    (req : FriendRequestRec)
    (hsend : sendRequest a b st = .ok (req, st1)) :
    (∃ st2, acceptRequest a b st1 = .ok st2 ∧
      b ∈ getFriends a st2 ∧ a ∈ getFriends b st2 ∧
      pendingExists a b st2 = false) ∧
    (∀ st3, pendingExists a b st3 = false →
      acceptRequest a b st3 = .error .notFound) := by
  have hnf : ∀ st3, pendingExists a b st3 = false →
      acceptRequest a b st3 = .error .notFound := by
    intro st3 h3
    simp [acceptRequest, h3]
  refine ⟨?_, hnf⟩
  simp only [sendRequest] at hsend
  split_ifs at hsend with h1 h2 h3
  injection hsend with hsend
  injection hsend with hreq hst1
  subst hst1
  have h2f : friendshipExists a b st = false := by simpa using h2
  have hfe : friendshipExists a b
      ⟨st.requests ++ [⟨a, b, ReqStatus.pending⟩], st.friendships⟩ = false := h2f
  have hpend1 : pendingExists a b
      ⟨st.requests ++ [⟨a, b, ReqStatus.pending⟩], st.friendships⟩ = true := by
    simp [pendingExists]
  refine ⟨FriendState.mk
      ((st.requests ++ [FriendRequestRec.mk a b ReqStatus.pending]).filter
        (fun r => !(decide (r.fromId = a ∧ r.toId = b ∧
          r.status = ReqStatus.pending))))
      (st.friendships ++ [(a, b)]), ?_, ?_, ?_, ?_⟩
  · simp [acceptRequest, hpend1, hfe]
  · simp only [getFriends, List.filterMap_append]
    apply List.mem_append_right
    simp
  · simp only [getFriends, List.filterMap_append]
    apply List.mem_append_right
    simp [h1]
  · rw [Bool.eq_false_iff]
    intro hcon
    rw [pendingExists, List.any_eq_true] at hcon
    obtain ⟨r, hr, hpr⟩ := hcon
    rw [List.mem_filter, hpr] at hr
    simp at hr

/-- C5 witness: the theorem applied to the concrete send of a request from
1 to 2 out of the empty state; its no-pending-request conjunct instantiated
at the empty state gives this concrete `NotFound` failure. -/
theorem C5_accept_after_send_witness :
    acceptRequest 1 2 ⟨[], []⟩ = .error .notFound :=
  (C5_accept_after_send 1 2 ⟨[], []⟩ ⟨[⟨1, 2, ReqStatus.pending⟩], []⟩
    ⟨1, 2, ReqStatus.pending⟩ rfl).2 ⟨[], []⟩ rfl

/-- C2: for every `createRemix` dispatch on an existing original post, the
newly created remix post's `originalArtist` attribute equals the original
post's `originalArtist` attribute, for every value of the caller-supplied
`originalArtist` argument. -/
theorem C2_createRemix_propagates_original_artist
    (oid : Nat) (origRec : PostRecord) (session : Option Nat)
    (vURL vTitle vDesc : Nat) (callerArtist : Option Nat) (st : AppState)
    (created : Nat × PostRecord) (st2 : AppState)
    (hlookup : (postingGetByID [oid] st).head? = some origRec)
    (hok : createRemixRoute oid session vURL vTitle vDesc callerArtist st =
      .ok (created, st2)) :
    created.2.originalArtist = origRec.originalArtist := by
  simp only [createRemixRoute, hlookup] at hok
  cases session with
  | none => exact absurd hok (by simp)
  | some user =>
    simp only [postingCreate] at hok
    cases hcr : createRemix oid st.nextPostId st.remixEdges with
    | error e => rw [hcr] at hok; exact absurd hok (by simp)
    | ok edges =>
      rw [hcr] at hok
      injection hok with hok
      injection hok with hcreated hst2
      rw [← hcreated]

/-- C2 witness: concretely, with post 1 stored with original artist 42 and
the caller supplying artist 99, the remix created by the route carries
artist 42, the one read off the resolved original record. -/
theorem C2_createRemix_propagates_original_artist_witness :
    ((2, (⟨9, 0, 0, 0, some 42⟩ : PostRecord)) : Nat × PostRecord).2.originalArtist =
      (⟨7, 0, 0, 0, some 42⟩ : PostRecord).originalArtist :=
  C2_createRemix_propagates_original_artist 1 ⟨7, 0, 0, 0, some 42⟩ (some 9)
    0 0 0 (some 99) ⟨[(1, ⟨7, 0, 0, 0, some 42⟩)], 2, ∅, [], []⟩
    (2, ⟨9, 0, 0, 0, some 42⟩)
    ⟨[(1, ⟨7, 0, 0, 0, some 42⟩), (2, ⟨9, 0, 0, 0, some 42⟩)], 3, ∅, [(1, 2)], []⟩
    rfl rfl

/-- C3: code-bug demonstration.  In the source the `toggleFavorite` route
invokes `Posting.assertPostExists` without `await`, so the existence check
cannot fail the request: with an empty post store (post 5 does not exist),
the route still succeeds and `Favoriting.toggleFavorite` still runs,
inserting the Favorite (0, 5). -/
theorem C3_toggleFavorite_route_skips_existence_check :
    postingExists 5 (⟨[], 0, ∅, [], []⟩ : AppState) = false ∧
    toggleFavoriteRoute 5 (some 0) (⟨[], 0, ∅, [], []⟩ : AppState) =
      .ok (true, (⟨[], 0, insert (0, 5) ∅, [], []⟩ : AppState)) := by
  exact ⟨rfl, rfl⟩

/-- C10: the `getRandomPostFiltered` route handles the no-match case
asymmetrically: with a tag filter that yields zero post ids it returns the
empty list, but with `tagNames` null and an empty post set it still indexes
position 0 of the empty array and passes the resulting `undefined` element
to the response formatter. -/
theorem C10_getRandomPostFiltered_asymmetry (st : AppState) (t : Nat) (r : ℚ) :
    (getPostsByTags t st = [] →
      getRandomPostFiltered (some t) r st = .emptyList) ∧
    (st.posts = [] →
      getRandomPostFiltered none r st = .formatted [none]) := by
  constructor
  · intro h
    simp [getRandomPostFiltered, h]
  · intro h
    simp [getRandomPostFiltered, postingGetPosts, h]

/-- C10 witness: concretely, on the empty application state the tag-filter
branch returns the empty list while the null-`tagNames` branch hands
`[undefined]` to the response formatter. -/
theorem C10_getRandomPostFiltered_asymmetry_witness :
    getRandomPostFiltered (some 0) (1 / 2) (⟨[], 0, ∅, [], []⟩ : AppState) =
      .emptyList ∧
    getRandomPostFiltered none (1 / 2) (⟨[], 0, ∅, [], []⟩ : AppState) =
      .formatted [none] :=
  ⟨(C10_getRandomPostFiltered_asymmetry ⟨[], 0, ∅, [], []⟩ 0 (1 / 2)).1 rfl,
   (C10_getRandomPostFiltered_asymmetry ⟨[], 0, ∅, [], []⟩ 0 (1 / 2)).2 rfl⟩

/-- Stability of the Trending Ranker's sort: the candidates of any fixed
score appear in the ranked list exactly as they appear in the input. -/
theorem filter_trendingRank (score : Nat → Nat) (l : List Nat) (s : Nat) :
    (trendingRank score l).filter (fun c => decide (score c = s)) =
      l.filter (fun c => decide (score c = s)) := by
  have h1 : List.Sublist (l.filter (fun c => decide (score c = s))) l :=
    List.filter_sublist l
  have hpair : (l.filter (fun c => decide (score c = s))).Pairwise (scoreRel score) := by
    apply List.pairwise_of_forall_mem_list
    intro x hx y hy
    have hx2 := List.of_mem_filter hx
    have hy2 := List.of_mem_filter hy
    simp only [decide_eq_true_eq] at hx2 hy2
    rw [scoreRel, hx2, hy2]
  have h2 : List.Sublist (l.filter (fun c => decide (score c = s)))
      (trendingRank score l) :=
    List.sublist_insertionSort hpair h1
  have h3 : List.Sublist (l.filter (fun c => decide (score c = s)))
      ((trendingRank score l).filter (fun c => decide (score c = s))) := by
    have h4 := h2.filter (fun c => decide (score c = s))
    rwa [List.filter_filter, List.filter_congr (by
      intro c _
      exact Bool.and_self _)] at h4
  have h5 : ((trendingRank score l).filter (fun c => decide (score c = s))).length =
      (l.filter (fun c => decide (score c = s))).length :=
    ((List.perm_insertionSort (scoreRel score) l).filter _).length_eq
  exact (h3.eq_of_length h5.symm).symm

/-- Stability transfers to the truncated ranking. -/
theorem trendingTopN_stable (score : Nat → Nat) (l : List Nat) (limit : Int)
    (out : List Nat) (h : trendingTopN score l limit = .ok out) (s : Nat) :
    List.Sublist (out.filter (fun c => decide (score c = s)))
      (l.filter (fun c => decide (score c = s))) := by
  rw [trendingTopN] at h
  split_ifs at h
  injection h with h
  subst h
  have h6 := (List.take_sublist limit.toNat (trendingRank score l)).filter
    (fun c => decide (score c = s))
  rwa [filter_trendingRank] at h6

/-- The Trending Ranker rejects exactly the negative limits. -/
theorem trendingTopN_invalid_iff (score : Nat → Nat) (l : List Nat) (limit : Int) :
    trendingTopN score l limit = .error .invalidOperation ↔ limit < 0 := by
  rw [trendingTopN]
  split_ifs with h
  · simp [h]
  · simp [h]

/-- The Trending Ranker maps an empty candidate list to the empty list. -/
theorem trendingTopN_empty (score : Nat → Nat) (limit : Int) (h : 0 ≤ limit) :
    trendingTopN score [] limit = .ok [] := by
  rw [trendingTopN, if_neg (by omega)]
  show Except.ok (List.take limit.toNat ([] : List Nat)) = Except.ok []
  rw [List.take_nil]

/-- When the limit exceeds the candidate count, the Trending Ranker returns
all candidates, ordered by descending score. -/
theorem trendingTopN_all (score : Nat → Nat) (l : List Nat) (limit : Int)
    (h0 : 0 ≤ limit) (hlen : (l.length : Int) < limit) :
    trendingTopN score l limit = .ok (trendingRank score l) ∧
    (trendingRank score l).Perm l ∧
    (trendingRank score l).Pairwise (scoreRel score) := by
  refine ⟨?_, List.perm_insertionSort _ _, List.sorted_insertionSort _ _⟩
  rw [trendingTopN, if_neg (by omega)]
  congr 1
  apply List.take_of_length_le
  rw [trendingRank, List.length_insertionSort]
  omega

/-- C6: the Trending Ranker, as exposed by `getMostFavorited` and
`getMostRemixed`, is stable under ties: candidates of any equal score `s`
appear in the output in the same relative order (a sublist of) they had in
the input candidate list. -/
theorem C6_trending_rankers_stable (favs : Finset (Nat × Nat))
    (edges : List (Nat × Nat)) (candidates : List Nat) (limit : Int)
    (outF outR : List Nat) (s : Nat)
    (hF : getMostFavorited favs candidates limit = .ok outF)
    (hR : getMostRemixed edges candidates limit = .ok outR) :
    List.Sublist (outF.filter (fun c => decide (getFavoriteCount c favs = s)))
      (candidates.filter (fun c => decide (getFavoriteCount c favs = s))) ∧
    List.Sublist (outR.filter (fun c => decide ((getRemixesOnPost c edges).length = s)))
      (candidates.filter
        (fun c => decide ((getRemixesOnPost c edges).length = s))) :=
  ⟨trendingTopN_stable _ candidates limit outF hF s,
   trendingTopN_stable _ candidates limit outR hR s⟩

/-- C6 witness: concretely, with no favorites and no remix edges all
candidates tie at score 0, and the top-1 of the candidate list [1, 2] keeps
input order: it is [1], a sublist of [1, 2] on the tied score class. -/
theorem C6_trending_rankers_stable_witness :
    List.Sublist
      ([1].filter (fun c => decide (getFavoriteCount c (∅ : Finset (Nat × Nat)) = 0)))
      ([1, 2].filter (fun c => decide (getFavoriteCount c (∅ : Finset (Nat × Nat)) = 0))) ∧
    List.Sublist
      ([1].filter (fun c => decide ((getRemixesOnPost c ([] : List (Nat × Nat))).length = 0)))
      ([1, 2].filter (fun c => decide ((getRemixesOnPost c ([] : List (Nat × Nat))).length = 0))) :=
  C6_trending_rankers_stable ∅ [] [1, 2] 1 [1] [1] 0 rfl rfl

/-- C7: for both `getMostFavorited` and `getMostRemixed`, the call fails
with `InvalidOperation` exactly when `limit < 0`; an empty candidate list
yields the empty list rather than an error; and a limit exceeding the
candidate count returns all candidates ordered by descending score. -/
theorem C7_trending_limit_behavior (favs : Finset (Nat × Nat))
    (edges : List (Nat × Nat)) (candidates : List Nat) (limit : Int) :
    (getMostFavorited favs candidates limit = .error .invalidOperation ↔
      limit < 0) ∧
    (getMostRemixed edges candidates limit = .error .invalidOperation ↔
      limit < 0) ∧
    (0 ≤ limit →
      getMostFavorited favs [] limit = .ok [] ∧
      getMostRemixed edges [] limit = .ok []) ∧
    (0 ≤ limit → (candidates.length : Int) < limit →
      (∃ out, getMostFavorited favs candidates limit = .ok out ∧
        out.Perm candidates ∧
        out.Pairwise (fun a b =>
          getFavoriteCount b favs ≤ getFavoriteCount a favs)) ∧
      (∃ out, getMostRemixed edges candidates limit = .ok out ∧
        out.Perm candidates ∧
        out.Pairwise (fun a b =>
          (getRemixesOnPost b edges).length ≤ (getRemixesOnPost a edges).length))) := by
  refine ⟨trendingTopN_invalid_iff _ _ _, trendingTopN_invalid_iff _ _ _,
    fun h => ⟨trendingTopN_empty _ _ h, trendingTopN_empty _ _ h⟩,
    fun h0 hlen => ⟨?_, ?_⟩⟩
  · obtain ⟨ha, hb, hc⟩ := trendingTopN_all (fun c => getFavoriteCount c favs)
      candidates limit h0 hlen
    exact ⟨_, ha, hb, hc⟩
  · obtain ⟨ha, hb, hc⟩ := trendingTopN_all
      (fun c => (getRemixesOnPost c edges).length) candidates limit h0 hlen
    exact ⟨_, ha, hb, hc⟩

/-- C7 witness: concretely, limit 2 over the empty candidate list yields
the empty list (not an error) for both rankers. -/
theorem C7_trending_limit_behavior_witness :
    getMostFavorited (∅ : Finset (Nat × Nat)) [] 2 = .ok [] ∧
    getMostRemixed ([] : List (Nat × Nat)) [] 2 = .ok [] :=
  (C7_trending_limit_behavior ∅ [] [] 2).2.2.1 (by decide)

end Engagement
